import Mathlib

/-!
Shallow embedding of `src/backend/red_tracking_utils.py` (the detection and
tracking core of the object-in-bag-detection repository), together with
theorems settling the specification claims about it.

Modelling conventions:
* OpenCV contours are represented by the quantities the code reads off them:
  `contourArea` result, `boundingRect` result, and the image moments
  `m00, m10, m01` used by `contour_center`.  Areas and moments are rationals
  (OpenCV returns doubles; for integer contours these are exact halves).
* The contour hierarchy row `hier[i]` is reduced to its `[2]` entry (the
  first-child index, `-1` for none), which is the only entry the code reads.
* Python `int(q)` (truncation toward zero) is `pyInt`.
* `defaultdict(int)` / `defaultdict(bool)` become total functions with the
  default value, updated pointwise, mirroring lazy per-id initialization.
* Color frames are carried at the HSV level: a frame holds its channel
  count and, when it is a 3-channel color image, its per-pixel HSV values.
  The BGR→HSV coordinate formula itself is not needed by any claim.
-/

/-- Python `int()` applied to a rational: truncation toward zero. -/
def pyInt (q : ℚ) : ℤ :=
  if q < 0 then -((-q).num / ((-q).den : ℤ)) else q.num / (q.den : ℤ)

/-- `MIN_OUTER_AREA = 1000` — minimum area of the red outer contour. -/
def MIN_OUTER_AREA : ℚ := 1000

/-- `MIN_INNER_AREA = 300` — minimum area of the hole (inner contour). -/
def MIN_INNER_AREA : ℚ := 300

/-- `HOLE_RATIO_MIN = 0.10` — declared lower bound for inner/outer. -/
def HOLE_RATIO_MIN : ℚ := 1/10

/-- `HOLE_RATIO_MAX = 0.90` — declared upper bound for inner/outer. -/
def HOLE_RATIO_MAX : ℚ := 9/10

/-- The data the code extracts from an OpenCV contour: `cv2.contourArea`,
`cv2.boundingRect` (x, y, w, h) and the moments `m00, m10, m01` used by
`contour_center`. -/
structure Contour where
  area : ℚ
  bbox : ℤ × ℤ × ℤ × ℤ
  m00 : ℚ
  m10 : ℚ
  m01 : ℚ
deriving DecidableEq, Repr

/-- The `"type"` tag of a detection dict: `"hole"` or `"bbox"`. -/
inductive DType where
  | hole
  | bbox
deriving DecidableEq, Repr

/-- One detection dict returned by `detect_red_frames`: `outer_bbox`,
`center`, `inner_contour` (None for bbox-type) and the type tag.
(The `outer_contour` entry is omitted: it is the iterated contour itself.) -/
structure Detection where
  outer_bbox : ℤ × ℤ × ℤ × ℤ
  center : ℤ × ℤ
  inner_contour : Option Contour
  dtype : DType
deriving DecidableEq, Repr

/-- `contour_center(cnt)`: returns None when the zeroth moment is zero,
otherwise the truncated centroid `(int(m10/m00), int(m01/m00))`. -/
def contour_center (cnt : Contour) : Option (ℤ × ℤ) :=
  if cnt.m00 = 0 then none
  else some (pyInt (cnt.m10 / cnt.m00), pyInt (cnt.m01 / cnt.m00))

/-- The body of the `detect_red_frames` loop for contour `c` at index `i`:
`none` means `continue` with no detection appended, `some d` means `d` is
appended.  `hier` is the list of first-child indices (`hier[i][2]`). -/
def processContour (cnts : List Contour) (hier : List ℤ) (i : ℕ)
    (c : Contour) : Option Detection :=
  let outer_area := c.area
  if outer_area < MIN_OUTER_AREA then none
  else
    let (x, y, w, h) := c.bbox
    if w = 0 ∨ h = 0 then none
    else
      let ar : ℚ := (w : ℚ) / (h : ℚ)
      if ar < 1/5 ∨ 5 < ar then none
      else
        let child_idx := hier.getD i (-1)
        let holeCase : Option Detection :=
          if child_idx ≠ -1 then
            match cnts.get? child_idx.toNat with
            | some c_inner =>
              let inner_area := c_inner.area
              if MIN_INNER_AREA ≤ inner_area then
                match contour_center c_inner with
                | some center =>
                  some { outer_bbox := (x, y, w, h), center := center,
                         inner_contour := some c_inner, dtype := DType.hole }
                | none => none
              else none
            | none => none
          else none
        match holeCase with
        | some d => some d
        | none =>
          let center_x := pyInt ((x : ℚ) + (w : ℚ) / 2)
          let center_y := pyInt ((y : ℚ) + (h : ℚ) / 2)
          some { outer_bbox := (x, y, w, h), center := (center_x, center_y),
                 inner_contour := none, dtype := DType.bbox }

/-- The indexed `for i, c_outer in enumerate(cnts)` loop of
`detect_red_frames`, collecting the appended detections in order. -/
def detectLoop (cnts : List Contour) (hier : List ℤ) :
    ℕ → List Contour → List Detection
  | _, [] => []
  | i, c :: rest =>
    match processContour cnts hier i c with
    | some d => d :: detectLoop cnts hier (i+1) rest
    | none => detectLoop cnts hier (i+1) rest

/-- `detect_red_frames(mask)` after `cv2.findContours`: takes the contour
list and the hierarchy (`none` models `hier is None`, in which case the
function returns `[]`), and collects the detections of the loop. -/
def detect_red_frames (cnts : List Contour) (hier : Option (List ℤ)) :
    List Detection :=
  match hier with
  | none => []
  | some h => detectLoop cnts h 0 cnts

/-- `is_point_in_bbox(point, bbox)`: containment with a 10% inward margin
on each side (`margin_x = w * 0.1`, `margin_y = h * 0.1`). -/
def is_point_in_bbox (point : ℤ × ℤ) (bbox : ℤ × ℤ × ℤ × ℤ) : Bool :=
  let (x, y, w, h) := bbox
  let (px, py) := point
  let margin_x : ℚ := (w : ℚ) * (1/10)
  let margin_y : ℚ := (h : ℚ) * (1/10)
  (decide ((x : ℚ) + margin_x ≤ (px : ℚ)) &&
   decide ((px : ℚ) ≤ (x : ℚ) + (w : ℚ) - margin_x)) &&
  (decide ((y : ℚ) + margin_y ≤ (py : ℚ)) &&
   decide ((py : ℚ) ≤ (y : ℚ) + (h : ℚ) - margin_y))

/-- The object's bounding box `[x1, y1, x2, y2]` as supplied by the external
detector (floating-point coordinates, embedded as rationals). -/
def Box := ℚ × ℚ × ℚ × ℚ
deriving DecidableEq

/-- `obj_center` computed in `CrossingTracker.update`:
`(int((x1+x2)/2), int((y1+y2)/2))`. -/
def objCenter (box : Box) : ℤ × ℤ :=
  let (x1, y1, x2, y2) := box
  (pyInt ((x1 + x2) / 2), pyInt ((y1 + y2) / 2))

/-- `obj_area = (x2 - x1) * (y2 - y1)` computed in `CrossingTracker.update`. -/
def objArea (box : Box) : ℚ :=
  let (x1, y1, x2, y2) := box
  (x2 - x1) * (y2 - y1)

/-- `frame_area = frame_w * frame_h` for a detection's `outer_bbox`. -/
def frameArea (f : Detection) : ℤ :=
  f.outer_bbox.2.2.1 * f.outer_bbox.2.2.2

/-- The `for frame_info in red_frames` loop of `CrossingTracker.update`:
skip a detection when `obj_area >= frame_area`, otherwise test
`is_point_in_bbox` and break at the first success. -/
def computeInside (center : ℤ × ℤ) (obj_area : ℚ) :
    List Detection → Bool
  | [] => false
  | f :: rest =>
    if obj_area ≥ ((frameArea f : ℤ) : ℚ) then computeInside center obj_area rest
    else if is_point_in_bbox center f.outer_bbox then true
    else computeInside center obj_area rest

/-- The `CrossingTracker` state: `crossing_counts` and `was_inside` are
`defaultdict`s (total functions with default 0 / False), plus
`total_crossings`. -/
structure CrossingTracker where
  crossing_counts : ℤ → ℕ
  was_inside : ℤ → Bool
  total_crossings : ℕ

/-- `CrossingTracker.__init__`: empty defaultdicts and zero total. -/
def CrossingTracker.init : CrossingTracker :=
  { crossing_counts := fun _ => 0, was_inside := fun _ => false,
    total_crossings := 0 }

/-- `CrossingTracker.update(object_id, object_box_xyxy, red_frames)`:
returns the updated tracker and the `crossed` flag. -/
def CrossingTracker.update (t : CrossingTracker) (object_id : ℤ)
    (object_box_xyxy : Box) (red_frames : List Detection) :
    CrossingTracker × Bool :=
  let obj_center := objCenter object_box_xyxy
  let obj_area := objArea object_box_xyxy
  let is_inside_now := computeInside obj_center obj_area red_frames
  if is_inside_now && !(t.was_inside object_id) then
    ({ crossing_counts := fun i =>
         if i = object_id then t.crossing_counts i + 1 else t.crossing_counts i,
       was_inside := fun i =>
         if i = object_id then is_inside_now else t.was_inside i,
       total_crossings := t.total_crossings + 1 }, true)
  else
    ({ t with was_inside := fun i =>
         if i = object_id then is_inside_now else t.was_inside i }, false)

/-- `CrossingTracker.get_total_crossings()`. -/
def CrossingTracker.get_total_crossings (t : CrossingTracker) : ℕ :=
  t.total_crossings

/-- A detection "qualifies" for an object in one loop iteration of
`CrossingTracker.update`: the object's area is strictly smaller than the
detection's outer-bbox area and the object's center passes
`is_point_in_bbox`. -/
def qualifies (c : ℤ × ℤ) (a : ℚ) (f : Detection) : Bool :=
  decide (a < ((frameArea f : ℤ) : ℚ)) && is_point_in_bbox c f.outer_bbox

/-- The computed per-call sample `is_inside_now` for one `update` call. -/
def sampleOf (box : Box) (fs : List Detection) : Bool :=
  computeInside (objCenter box) (objArea box) fs

/-- Number of `false→true` transitions in a sample sequence, starting from
a given previous state. -/
def countFT : Bool → List Bool → ℕ
  | _, [] => 0
  | was, s :: rest => (if s && !was then 1 else 0) + countFT s rest

/-- Repeated `update` calls for a single object id. -/
def runUpdates (t : CrossingTracker) (id : ℤ) :
    List (Box × List Detection) → CrossingTracker
  | [] => t
  | (box, fs) :: rest => runUpdates ((t.update id box fs).1) id rest

/-- Repeated `update` calls for arbitrary object ids. -/
def runAll (t : CrossingTracker) :
    List (ℤ × Box × List Detection) → CrossingTracker
  | [] => t
  | (id, box, fs) :: rest => runAll ((t.update id box fs).1) rest

/-- One HSV pixel (hue, saturation, value). -/
structure Pixel where
  hch : ℕ
  sch : ℕ
  vch : ℕ
deriving DecidableEq, Repr

/-- An input color frame: its channel count, and (when it is a 3-channel
color image) its pixel colors, carried in HSV coordinates. -/
structure Frame where
  channels : ℕ
  data : List Pixel
deriving DecidableEq, Repr

/-- The spec's InputError taxonomy entry for a malformed frame. -/
inductive InputError where
  | wrongChannels
deriving DecidableEq, Repr

/-- Modelled from the spec: the color-conversion step of `red_mask_hsv`
(`cv2.cvtColor(bgr, COLOR_BGR2HSV)`, a library call outside this
repository's source) fails with an InputError when the frame's channel
layout is not a 3-channel color image; otherwise it yields the frame's
colors in HSV coordinates. -/
def cvtColorToHSV (f : Frame) : Except InputError (List Pixel) :=
  if f.channels = 3 then Except.ok f.data
  else Except.error InputError.wrongChannels

/-- The `hsv_params` global of the source with its tuned defaults
(`DEFAULT_H1_LOW` … `DEFAULT_V_HIGH`). -/
structure HSVParams where
  h1_low : ℕ
  h1_high : ℕ
  h2_low : ℕ
  h2_high : ℕ
  s_low : ℕ
  s_high : ℕ
  v_low : ℕ
  v_high : ℕ
deriving DecidableEq, Repr

/-- The default `hsv_params` value built by `HSVParams.__init__`. -/
def hsv_params : HSVParams :=
  { h1_low := 0, h1_high := 9, h2_low := 150, h2_high := 180,
    s_low := 160, s_high := 255, v_low := 193, v_high := 255 }

/-- The per-pixel test of `cv2.inRange`: every channel between the
corresponding lower and upper bound (inclusive). -/
def pixelInRange (lower upper p : Pixel) : Bool :=
  decide (lower.hch ≤ p.hch ∧ p.hch ≤ upper.hch) &&
  decide (lower.sch ≤ p.sch ∧ p.sch ≤ upper.sch) &&
  decide (lower.vch ≤ p.vch ∧ p.vch ≤ upper.vch)

/-- `cv2.inRange(hsv, lower, upper)`: one mask bit per pixel. -/
def inRangeMask (img : List Pixel) (lower upper : Pixel) : List Bool :=
  img.map (pixelInRange lower upper)

/-- `cv2.bitwise_or` of two masks, per pixel. -/
def bitwise_or (m1 m2 : List Bool) : List Bool :=
  List.zipWith or m1 m2

/-- First hue range lower bound `[h1_low, s_low, v_low]`. -/
def lowerOne (params : HSVParams) : Pixel :=
  ⟨params.h1_low, params.s_low, params.v_low⟩

/-- First hue range upper bound `[h1_high, s_high, v_high]`. -/
def upperOne (params : HSVParams) : Pixel :=
  ⟨params.h1_high, params.s_high, params.v_high⟩

/-- Second hue range lower bound `[h2_low, s_low, v_low]`. -/
def lowerTwo (params : HSVParams) : Pixel :=
  ⟨params.h2_low, params.s_low, params.v_low⟩

/-- Second hue range upper bound `[h2_high, s_high, v_high]`. -/
def upperTwo (params : HSVParams) : Pixel :=
  ⟨params.h2_high, params.s_high, params.v_high⟩

/-- `red_mask_hsv(bgr)`: convert to HSV, threshold against the two red hue
ranges, and return the per-pixel OR of the two masks.  The morphological
cleanup in the source is commented out: the raw mask is returned. -/
def red_mask_hsv (params : HSVParams) (bgr : Frame) :
    Except InputError (List Bool) := do
  let hsv ← cvtColorToHSV bgr
  let m1 := inRangeMask hsv (lowerOne params) (upperOne params)
  let m2 := inRangeMask hsv (lowerTwo params) (upperTwo params)
  return bitwise_or m1 m2

/-! Concrete example values, used by the closed witness and counterexample
theorems below. -/

/-- Example outer contour: area 10000, bounding box 200×100. -/
def cOuterEx : Contour :=
  { area := 10000, bbox := (0, 0, 200, 100), m00 := 10000,
    m10 := 1000000, m01 := 500000 }

/-- Example inner contour of area 500 (inner/outer = 0.05 against
`cOuterEx`) with a well-defined centroid (100, 50). -/
def cInnerEx : Contour :=
  { area := 500, bbox := (50, 25, 100, 50), m00 := 500,
    m10 := 50000, m01 := 25000 }

/-- Example outer contour with bounding box 100×100 and area 2000. -/
def cOuterSq : Contour :=
  { area := 2000, bbox := (0, 0, 100, 100), m00 := 2000,
    m10 := 100000, m01 := 100000 }

/-- Example inner contour that passes the size test (area 400) but has a
degenerate zeroth moment `m00 = 0`. -/
def cInnerZeroM : Contour :=
  { area := 400, bbox := (10, 10, 50, 50), m00 := 0, m10 := 0, m01 := 0 }

/-- Example detection: a 100×100 bbox-type detection at the origin. -/
def dBig : Detection :=
  { outer_bbox := (0, 0, 100, 100), center := (50, 50),
    inner_contour := none, dtype := DType.bbox }

/-- Example detection: a 5×5 bbox-type detection at the origin. -/
def dSmall : Detection :=
  { outer_bbox := (0, 0, 5, 5), center := (2, 2),
    inner_contour := none, dtype := DType.bbox }

/-- Example object box centered at (50, 50) with area 400. -/
def boxSmall : Box := ((40 : ℚ), (40 : ℚ), (60 : ℚ), (60 : ℚ))

/-- Example object box with area 100. -/
def boxTen : Box := ((0 : ℚ), (0 : ℚ), (10 : ℚ), (10 : ℚ))

/-- Example frame: single-channel (grayscale) image. -/
def frameGray : Frame := { channels := 1, data := [] }

/-- Example 3-channel frame with two pixels: one inside the first red hue
range, one outside both. -/
def frameTwoPx : Frame :=
  { channels := 3, data := [⟨0, 200, 200⟩, ⟨100, 0, 0⟩] }

/-! Helper lemmas about the inside-scan and a single `update` call. -/

theorem computeInside_eq_any (c : ℤ × ℤ) (a : ℚ) (fs : List Detection) :
    computeInside c a fs = fs.any (qualifies c a) := by
  induction fs with
  | nil => rfl
  | cons f rest ih =>
    simp only [computeInside, List.any_cons, qualifies]
    by_cases hskip : a ≥ ((frameArea f : ℤ) : ℚ)
    · rw [if_pos hskip, ih]
      have hd : decide (a < ((frameArea f : ℤ) : ℚ)) = false := by
        simp only [decide_eq_false_iff_not, not_lt]; exact hskip
      simp [hd, qualifies]
    · rw [if_neg hskip]
      have hlt : a < ((frameArea f : ℤ) : ℚ) := lt_of_not_ge hskip
      by_cases hb : is_point_in_bbox c f.outer_bbox = true
      · simp [hb, hlt]
      · simp only [Bool.not_eq_true] at hb
        simp [hb, hlt, ih, qualifies]

theorem computeInside_eq_true_iff (c : ℤ × ℤ) (a : ℚ) (fs : List Detection) :
    computeInside c a fs = true ↔ ∃ f ∈ fs, qualifies c a f = true := by
  rw [computeInside_eq_any, List.any_eq_true]

theorem update_fst (t : CrossingTracker) (id : ℤ) (box : Box)
    (fs : List Detection) :
    (t.update id box fs).1 =
      if sampleOf box fs && !(t.was_inside id) then
        { crossing_counts := fun i =>
            if i = id then t.crossing_counts i + 1 else t.crossing_counts i,
          was_inside := fun i =>
            if i = id then sampleOf box fs else t.was_inside i,
          total_crossings := t.total_crossings + 1 }
      else
        { t with was_inside := fun i =>
            if i = id then sampleOf box fs else t.was_inside i } := by
  simp only [CrossingTracker.update, sampleOf]
  split <;> rfl

theorem update_snd (t : CrossingTracker) (id : ℤ) (box : Box)
    (fs : List Detection) :
    (t.update id box fs).2 = (sampleOf box fs && !(t.was_inside id)) := by
  simp only [CrossingTracker.update, sampleOf]
  split <;> simp_all

theorem update_crossing_counts_self (t : CrossingTracker) (id : ℤ) (box : Box)
    (fs : List Detection) :
    ((t.update id box fs).1).crossing_counts id =
      t.crossing_counts id +
        (if sampleOf box fs && !(t.was_inside id) then 1 else 0) := by
  rw [update_fst]
  split <;> simp

theorem update_was_inside_self (t : CrossingTracker) (id : ℤ) (box : Box)
    (fs : List Detection) :
    ((t.update id box fs).1).was_inside id = sampleOf box fs := by
  rw [update_fst]
  split <;> simp

theorem runUpdates_counts (id : ℤ) (inputs : List (Box × List Detection)) :
    ∀ t : CrossingTracker,
      (runUpdates t id inputs).crossing_counts id =
        t.crossing_counts id +
          countFT (t.was_inside id) (inputs.map fun p => sampleOf p.1 p.2) := by
  induction inputs with
  | nil => intro t; simp [runUpdates, countFT]
  | cons p rest ih =>
    intro t
    obtain ⟨box, fs⟩ := p
    simp only [runUpdates, List.map_cons, countFT]
    rw [ih, update_crossing_counts_self, update_was_inside_self]
    omega

/-- C2: for every object id and every finite sequence of `update` calls for
that id on a fresh tracker, the per-id `crossing_count` equals the number of
`false→true` transitions of the computed `is_inside_now` samples, starting
from the default `was_inside = false`; false→false, true→true and
true→false samples never change it. -/
theorem crossing_count_eq_false_to_true_transitions (id : ℤ)
    (inputs : List (Box × List Detection)) :
    (runUpdates CrossingTracker.init id inputs).crossing_counts id =
      countFT false (inputs.map fun p => sampleOf p.1 p.2) := by
  rw [runUpdates_counts]
  simp [CrossingTracker.init]

/-- C4: in every `update` call, a detection whose outer-bbox area does not
strictly exceed the object's bbox area is skipped: if no detection's area
strictly exceeds the object's, the object is never considered inside
(regardless of center position), and conversely being inside requires some
listed detection with strictly larger outer-bbox area. -/
theorem inside_requires_strictly_larger_frame (t : CrossingTracker) (id : ℤ)
    (box : Box) (fs : List Detection) :
    ((∀ f ∈ fs, ((frameArea f : ℤ) : ℚ) ≤ objArea box) →
      sampleOf box fs = false ∧ (t.update id box fs).2 = false ∧
        ((t.update id box fs).1).was_inside id = false ∧
        ((t.update id box fs).1).crossing_counts id = t.crossing_counts id) ∧
    (sampleOf box fs = true →
      ∃ f ∈ fs, objArea box < ((frameArea f : ℤ) : ℚ) ∧
        is_point_in_bbox (objCenter box) f.outer_bbox = true) := by
  constructor
  · intro hall
    have hfalse : sampleOf box fs = false := by
      rw [sampleOf, ← Bool.not_eq_true, computeInside_eq_true_iff]
      rintro ⟨f, hf, hq⟩
      rw [qualifies, Bool.and_eq_true, decide_eq_true_eq] at hq
      exact absurd hq.1 (not_lt.mpr (hall f hf))
    refine ⟨hfalse, ?_, ?_, ?_⟩
    · rw [update_snd, hfalse]; rfl
    · rw [update_was_inside_self, hfalse]
    · rw [update_crossing_counts_self, hfalse]; rfl
  · intro htrue
    rw [sampleOf, computeInside_eq_true_iff] at htrue
    obtain ⟨f, hf, hq⟩ := htrue
    rw [qualifies, Bool.and_eq_true, decide_eq_true_eq] at hq
    exact ⟨f, hf, hq.1, hq.2⟩

/-- C5: in a single `update` call in which at least two detections qualify
as "inside" for the object, the per-id `crossing_count` increases by exactly
1 when `was_inside` was false and by 0 otherwise — never by more than 1,
because scanning stops at the first qualifying detection. -/
theorem at_most_one_increment_per_update (t : CrossingTracker) (id : ℤ)
    (box : Box) (fs : List Detection)
    (h2 : 2 ≤ (fs.filter (qualifies (objCenter box) (objArea box))).length) :
    ((t.update id box fs).1).crossing_counts id =
      t.crossing_counts id + (if t.was_inside id then 0 else 1) := by
  have hne : fs.filter (qualifies (objCenter box) (objArea box)) ≠ [] := by
    intro he
    rw [he] at h2
    simp at h2
  obtain ⟨f, hf⟩ := List.exists_mem_of_ne_nil _ hne
  rw [List.mem_filter] at hf
  have hsample : sampleOf box fs = true := by
    rw [sampleOf, computeInside_eq_true_iff]
    exact ⟨f, hf.1, hf.2⟩
  rw [update_crossing_counts_self, hsample]
  cases hw : t.was_inside id <;> simp

/-- C6: the containment test of `CrossingTracker.update` holds exactly when
the point lies within the detection box shrunk inward by 10% of the width on
each horizontal side and 10% of the height on each vertical side. -/
theorem is_point_in_bbox_iff_shrunk_box (px py x y w h : ℤ) :
    is_point_in_bbox (px, py) (x, y, w, h) = true ↔
      ((x : ℚ) + (1/10) * (w : ℚ) ≤ (px : ℚ) ∧
        (px : ℚ) ≤ (x : ℚ) + (w : ℚ) - (1/10) * (w : ℚ) ∧
        (y : ℚ) + (1/10) * (h : ℚ) ≤ (py : ℚ) ∧
        (py : ℚ) ≤ (y : ℚ) + (h : ℚ) - (1/10) * (h : ℚ)) := by
  simp only [is_point_in_bbox, Bool.and_eq_true, decide_eq_true_eq]
  constructor
  · rintro ⟨⟨h1, h2⟩, h3, h4⟩
    exact ⟨by linarith, by linarith, by linarith, by linarith⟩
  · rintro ⟨h1, h2, h3, h4⟩
    exact ⟨⟨by linarith, by linarith⟩, by linarith, by linarith⟩

theorem sum_insert_bump (S : Finset ℤ) (id : ℤ) (c : ℤ → ℕ) :
    (∑ i in insert id S, if i = id then c i + 1 else c i) =
      (∑ i in insert id S, c i) + 1 := by
  have hsplit : ∀ i : ℤ, (if i = id then c i + 1 else c i) =
      c i + (if i = id then 1 else 0) := by
    intro i; split <;> omega
  calc (∑ i in insert id S, if i = id then c i + 1 else c i)
      = ∑ i in insert id S, (c i + if i = id then 1 else 0) := by
        exact Finset.sum_congr rfl fun i _ => hsplit i
    _ = (∑ i in insert id S, c i) +
          ∑ i in insert id S, (if i = id then 1 else 0) := by
        rw [Finset.sum_add_distrib]
    _ = (∑ i in insert id S, c i) + 1 := by
        rw [Finset.sum_ite_eq' (insert id S) id (fun _ => 1)]
        simp

theorem update_inv (t : CrossingTracker) (id : ℤ) (box : Box)
    (fs : List Detection) (S : Finset ℤ)
    (htot : t.total_crossings = ∑ i in S, t.crossing_counts i)
    (hz : ∀ i, i ∉ S → t.crossing_counts i = 0) :
    ((t.update id box fs).1).total_crossings =
        ∑ i in insert id S, ((t.update id box fs).1).crossing_counts i ∧
      ∀ i, i ∉ insert id S → ((t.update id box fs).1).crossing_counts i = 0 := by
  have hS : (∑ i in insert id S, t.crossing_counts i) =
      ∑ i in S, t.crossing_counts i := by
    exact Finset.sum_insert_of_eq_zero_if_not_mem (hz id)
  rw [update_fst]
  by_cases hb : (sampleOf box fs && !(t.was_inside id)) = true
  · rw [if_pos hb]
    constructor
    · simp only
      rw [sum_insert_bump, hS, htot]
    · intro i hi
      simp only
      rw [Finset.mem_insert, not_or] at hi
      rw [if_neg hi.1]
      exact hz i hi.2
  · rw [if_neg hb]
    constructor
    · simp only
      rw [hS, htot]
    · intro i hi
      simp only
      rw [Finset.mem_insert, not_or] at hi
      exact hz i hi.2

theorem runAll_inv (inputs : List (ℤ × Box × List Detection)) :
    ∀ (t : CrossingTracker) (S : Finset ℤ),
      t.total_crossings = ∑ i in S, t.crossing_counts i →
      (∀ i, i ∉ S → t.crossing_counts i = 0) →
      (runAll t inputs).total_crossings =
          ∑ i in S ∪ (inputs.map fun p => p.1).toFinset,
            (runAll t inputs).crossing_counts i ∧
        ∀ i, i ∉ S ∪ (inputs.map fun p => p.1).toFinset →
          (runAll t inputs).crossing_counts i = 0 := by
  induction inputs with
  | nil =>
    intro t S htot hz
    constructor
    · simpa using htot
    · simpa using hz
  | cons p rest ih =>
    intro t S htot hz
    obtain ⟨id, box, fs⟩ := p
    have hstep := update_inv t id box fs S htot hz
    have hrec := ih ((t.update id box fs).1) (insert id S) hstep.1 hstep.2
    have hset : insert id S ∪ (rest.map fun p => p.1).toFinset =
        S ∪ (((id, box, fs) :: rest).map fun p => p.1).toFinset := by
      simp only [List.map_cons, List.toFinset_cons]
      rw [Finset.insert_union, Finset.union_insert]
    rw [hset] at hrec
    simpa [runAll] using hrec

/-- C9: after every sequence of `update` calls on a freshly constructed
tracker, `get_total_crossings` equals the sum of the per-id
`crossing_counts` over the ids that occurred in the sequence, and every
other id's count is 0 — both counters are bumped together on a crossing and
never change otherwise. -/
theorem total_crossings_eq_sum_of_counts
    (inputs : List (ℤ × Box × List Detection)) :
    (runAll CrossingTracker.init inputs).get_total_crossings =
        ∑ i in (inputs.map fun p => p.1).toFinset,
          (runAll CrossingTracker.init inputs).crossing_counts i ∧
      ∀ i, i ∉ (inputs.map fun p => p.1).toFinset →
        (runAll CrossingTracker.init inputs).crossing_counts i = 0 := by
  have h := runAll_inv inputs CrossingTracker.init ∅
    (by simp [CrossingTracker.init]) (by intro i _; rfl)
  rw [Finset.empty_union] at h
  exact h

/-- C8: when contour extraction yields no hierarchy (`hier is None`) or no
contours at all, `detect_red_frames` returns the empty list; no error is
possible (the function is total). -/
theorem detect_red_frames_empty_on_degenerate :
    (∀ cnts : List Contour, detect_red_frames cnts none = []) ∧
      ∀ hier : List ℤ, detect_red_frames [] (some hier) = [] :=
  ⟨fun _ => rfl, fun _ => rfl⟩

/-- C1, evidence against the claim: a candidate whose inner/outer area ratio
is 0.05 — below `HOLE_RATIO_MIN = 0.10` — is nevertheless classified HOLE by
`detect_red_frames`, because the code never consults the declared
`HOLE_RATIO_MIN`/`HOLE_RATIO_MAX` bounds (only `MIN_INNER_AREA`). -/
theorem hole_detection_ignores_ratio_bounds :
    cInnerEx.area / cOuterEx.area = 1/20 ∧
      cInnerEx.area / cOuterEx.area < HOLE_RATIO_MIN ∧
      detect_red_frames [cOuterEx, cInnerEx] (some [1, -1]) =
        [{ outer_bbox := (0, 0, 200, 100), center := (100, 50),
           inner_contour := some cInnerEx, dtype := DType.hole }] := by
  refine ⟨by norm_num [cInnerEx, cOuterEx], ?_, ?_⟩
  · norm_num [cInnerEx, cOuterEx, HOLE_RATIO_MIN]
  · have e1 : processContour [cOuterEx, cInnerEx] [1, -1] 0 cOuterEx =
        some { outer_bbox := (0, 0, 200, 100), center := (100, 50),
               inner_contour := some cInnerEx, dtype := DType.hole } := by
      norm_num [processContour, cOuterEx, cInnerEx, MIN_OUTER_AREA,
        MIN_INNER_AREA, contour_center, pyInt, List.getD, List.get?]
    have e2 : processContour [cOuterEx, cInnerEx] [1, -1] 1 cInnerEx = none := by
      norm_num [processContour, cInnerEx, MIN_OUTER_AREA]
    show detectLoop [cOuterEx, cInnerEx] [1, -1] 0 [cOuterEx, cInnerEx] = _
    simp only [detectLoop, e1, e2]

/-- C10: when an outer contour passes the geometric filters and its child
contour passes the size test but has zeroth image moment `m00 = 0`,
`contour_center` returns `none` — the division by `m00` is guarded — and
`detect_red_frames` emits a BBOX detection centered at the outer bounding
box's center instead of dropping the candidate or failing. -/
theorem zero_moment_child_falls_back_to_bbox
    (c_outer c_inner : Contour) (x y w h : ℤ)
    (harea : MIN_OUTER_AREA ≤ c_outer.area)
    (hbb : c_outer.bbox = (x, y, w, h))
    (hw : w ≠ 0) (hh : h ≠ 0)
    (har1 : ¬ ((w : ℚ) / (h : ℚ) < 1/5)) (har2 : ¬ (5 < (w : ℚ) / (h : ℚ)))
    (hinner_lo : MIN_INNER_AREA ≤ c_inner.area)
    (hinner_hi : c_inner.area < MIN_OUTER_AREA)
    (hm : c_inner.m00 = 0) :
    contour_center c_inner = none ∧
      detect_red_frames [c_outer, c_inner] (some [1, -1]) =
        [{ outer_bbox := (x, y, w, h),
           center := (pyInt ((x : ℚ) + (w : ℚ) / 2), pyInt ((y : ℚ) + (h : ℚ) / 2)),
           inner_contour := none, dtype := DType.bbox }] := by
  have hcc : contour_center c_inner = none := by
    rw [contour_center, if_pos hm]
  refine ⟨hcc, ?_⟩
  have hnlt : ¬ c_outer.area < MIN_OUTER_AREA := not_lt.mpr harea
  have hwh : ¬ (w = 0 ∨ h = 0) := not_or.mpr ⟨hw, hh⟩
  have har : ¬ ((w : ℚ) / (h : ℚ) < 1/5 ∨ 5 < (w : ℚ) / (h : ℚ)) :=
    not_or.mpr ⟨har1, har2⟩
  have e1 : processContour [c_outer, c_inner] [1, -1] 0 c_outer =
      some { outer_bbox := (x, y, w, h),
             center := (pyInt ((x : ℚ) + (w : ℚ) / 2), pyInt ((y : ℚ) + (h : ℚ) / 2)),
             inner_contour := none, dtype := DType.bbox } := by
    simp only [processContour, hbb]
    rw [if_neg hnlt, if_neg hwh, if_neg har]
    norm_num [List.getD, List.get?, hinner_lo, hcc]
  have e2 : processContour [c_outer, c_inner] [1, -1] 1 c_inner = none := by
    simp only [processContour]
    rw [if_pos hinner_hi]
  show detectLoop [c_outer, c_inner] [1, -1] 0 [c_outer, c_inner] = _
  simp only [detectLoop, e1, e2]

/-- C3: for every frame whose channel layout is not a 3-channel color
image, `red_mask_hsv` fails with an InputError, which propagates to the
caller; the function reads no tracker state, so none can be corrupted. -/
theorem red_mask_hsv_error_on_wrong_channels (params : HSVParams)
    (bgr : Frame) (hch : bgr.channels ≠ 3) :
    red_mask_hsv params bgr = Except.error InputError.wrongChannels := by
  simp [red_mask_hsv, cvtColorToHSV, hch, Except.bind]

theorem zipWith_or_map_get (g k : Pixel → Bool) (l : List Pixel) :
    ∀ i p, l.get? i = some p →
      (List.zipWith or (l.map g) (l.map k)).get? i = some (or (g p) (k p)) := by
  induction l with
  | nil => intro i p hp; simp at hp
  | cons a l ih =>
    intro i p hp
    cases i with
    | zero =>
      rw [List.get?_cons_zero] at hp
      cases hp
      simp [List.zipWith]
    | succ n =>
      rw [List.get?_cons_succ] at hp
      simpa [List.zipWith] using ih n p hp

/-- C7: for every 3-channel color frame, the mask returned by
`red_mask_hsv` is exactly the per-pixel OR of the two in-range tests (first
hue range and second hue range, each intersected with the shared saturation
and value ranges), with no smoothing or morphological cleanup applied. -/
theorem red_mask_hsv_is_pixelwise_or (params : HSVParams) (bgr : Frame)
    (mask : List Bool) (hch : bgr.channels = 3)
    (hmask : red_mask_hsv params bgr = Except.ok mask) :
    mask = bitwise_or
        (inRangeMask bgr.data (lowerOne params) (upperOne params))
        (inRangeMask bgr.data (lowerTwo params) (upperTwo params)) ∧
      ∀ i p, bgr.data.get? i = some p →
        mask.get? i = some
          (pixelInRange (lowerOne params) (upperOne params) p ||
            pixelInRange (lowerTwo params) (upperTwo params) p) := by
  have hmask' : mask = bitwise_or
      (inRangeMask bgr.data (lowerOne params) (upperOne params))
      (inRangeMask bgr.data (lowerTwo params) (upperTwo params)) := by
    rw [red_mask_hsv] at hmask
    simp [cvtColorToHSV, hch, Except.bind] at hmask
    exact hmask.symm
  refine ⟨hmask', ?_⟩
  intro i p hp
  rw [hmask', bitwise_or, inRangeMask, inRangeMask]
  exact zipWith_or_map_get _ _ _ i p hp

/-- Witness for C3: a 1-channel (grayscale) frame makes `red_mask_hsv`
fail with the InputError. -/
theorem red_mask_hsv_error_on_wrong_channels_witness :
    red_mask_hsv hsv_params frameGray = Except.error InputError.wrongChannels :=
  red_mask_hsv_error_on_wrong_channels hsv_params frameGray (by decide)

/-- Witness for C4: a 10×10 object is never inside a 5×5 detection, and a
20×20 object found inside has a strictly larger (100×100) detection. -/
theorem inside_requires_strictly_larger_frame_witness :
    (sampleOf boxTen [dSmall] = false ∧
        (CrossingTracker.init.update 7 boxTen [dSmall]).2 = false ∧
        ((CrossingTracker.init.update 7 boxTen [dSmall]).1).was_inside 7 = false ∧
        ((CrossingTracker.init.update 7 boxTen [dSmall]).1).crossing_counts 7 =
          CrossingTracker.init.crossing_counts 7) ∧
      ∃ f ∈ [dBig], objArea boxSmall < ((frameArea f : ℤ) : ℚ) ∧
        is_point_in_bbox (objCenter boxSmall) f.outer_bbox = true :=
  ⟨(inside_requires_strictly_larger_frame CrossingTracker.init 7 boxTen
        [dSmall]).1
      (by norm_num [frameArea, dSmall, objArea, boxTen]),
    (inside_requires_strictly_larger_frame CrossingTracker.init 7 boxSmall
        [dBig]).2
      (by norm_num [sampleOf, computeInside, objCenter, objArea, boxSmall,
        frameArea, dBig, pyInt, is_point_in_bbox])⟩

/-- Witness for C5: two identical qualifying detections in one `update`
call still increment the fresh per-id count by exactly 1. -/
theorem at_most_one_increment_per_update_witness :
    ((CrossingTracker.init.update 7 boxSmall [dBig, dBig]).1).crossing_counts 7 =
      CrossingTracker.init.crossing_counts 7 +
        (if CrossingTracker.init.was_inside 7 then 0 else 1) :=
  at_most_one_increment_per_update CrossingTracker.init 7 boxSmall [dBig, dBig]
    (by norm_num [qualifies, List.filter, objCenter, objArea, boxSmall,
      frameArea, dBig, is_point_in_bbox, pyInt])

/-- Witness for C7: on a concrete two-pixel 3-channel frame the returned
mask `[true, false]` is the per-pixel OR of the two range tests. -/
theorem red_mask_hsv_is_pixelwise_or_witness :
    [true, false] = bitwise_or
        (inRangeMask frameTwoPx.data (lowerOne hsv_params) (upperOne hsv_params))
        (inRangeMask frameTwoPx.data (lowerTwo hsv_params) (upperTwo hsv_params)) ∧
      ∀ i p, frameTwoPx.data.get? i = some p →
        ([true, false] : List Bool).get? i = some
          (pixelInRange (lowerOne hsv_params) (upperOne hsv_params) p ||
            pixelInRange (lowerTwo hsv_params) (upperTwo hsv_params) p) :=
  red_mask_hsv_is_pixelwise_or hsv_params frameTwoPx [true, false]
    (by decide) (by rfl)

/-- Witness for C10: a 100×100 outer contour with a size-passing child of
zero `m00` yields exactly one BBOX detection at the bbox center. -/
theorem zero_moment_child_falls_back_to_bbox_witness :
    contour_center cInnerZeroM = none ∧
      detect_red_frames [cOuterSq, cInnerZeroM] (some [1, -1]) =
        [{ outer_bbox := (0, 0, 100, 100),
           center := (pyInt ((0 : ℚ) + (100 : ℚ) / 2),
             pyInt ((0 : ℚ) + (100 : ℚ) / 2)),
           inner_contour := none, dtype := DType.bbox }] :=
  zero_moment_child_falls_back_to_bbox cOuterSq cInnerZeroM 0 0 100 100
    (by norm_num [cOuterSq, MIN_OUTER_AREA]) (by rfl)
    (by decide) (by decide)
    (by norm_num) (by norm_num)
    (by norm_num [cInnerZeroM, MIN_INNER_AREA])
    (by norm_num [cInnerZeroM, MIN_OUTER_AREA])
    (by rfl)
